import Mathlib

/-!
Shallow embedding of the GameCube controller adapter driver
(`Source/Core/InputCommon/GCAdapter.cpp`, libusb implementation branch,
non-Apple build) together with proofs about its public operations.

The embedding models the file-scope mutable state of the translation unit
as an explicit `AdapterState` record that every operation threads through.
Single-threaded semantics are used: a `try_lock` on an uncontended mutex
succeeds, and thread starts/joins/signals are recorded as plain state
changes (`adapter_thread_running`, `rumble_signal_count`).  USB transfers
performed by an operation are returned as an explicit trace of payload
byte lists.  Machine integers are modelled as `Nat` (unsigned) or `Int`
(for `int`-typed status codes and sizes); payload bytes are `Nat`s below
256 wherever a theorem needs the bound.
-/

namespace GCAdapter

/-- A fixed four-entry table, one entry per SI channel
(`std::array<_, SerialInterface::MAX_SI_CHANNELS>` with
`MAX_SI_CHANNELS = 4`). -/
structure Ports (α : Type) where
  p0 : α
  p1 : α
  p2 : α
  p3 : α
deriving DecidableEq, Repr

/-- Index a `Ports` table by channel number. -/
def Ports.get {α : Type} (v : Ports α) (i : Fin 4) : α :=
  match i.val with
  | 0 => v.p0
  | 1 => v.p1
  | 2 => v.p2
  | _ => v.p3

/-- Update one entry of a `Ports` table. -/
def Ports.set {α : Type} (v : Ports α) (i : Fin 4) (x : α) : Ports α :=
  match i.val with
  | 0 => { v with p0 := x }
  | 1 => { v with p1 := x }
  | 2 => { v with p2 := x }
  | _ => { v with p3 := x }

/-- `Ports` table with the same value at every channel (`std::array::fill`). -/
def Ports.fill {α : Type} (x : α) : Ports α := ⟨x, x, x, x⟩

/-- The four entries as a list, in channel order. -/
def Ports.toList {α : Type} (v : Ports α) : List α := [v.p0, v.p1, v.p2, v.p3]

/-- Modelled from the spec: the result record of `Input` (`GCPadStatus` from
`InputCommon/GCPadStatus.h`, which is not part of the provided sources).
Only the fields the driver writes are modelled: the 16-bit `button` mask and
the six analog bytes.  `GCPadStatus pad = {};` zero-initialises every field. -/
structure GCPadStatus where
  button : Nat
  stickX : Nat
  stickY : Nat
  substickX : Nat
  substickY : Nat
  triggerLeft : Nat
  triggerRight : Nat
deriving DecidableEq, Repr

/-- The zero-initialised `GCPadStatus` (`GCPadStatus pad = {};`). -/
def defaultPad : GCPadStatus := ⟨0, 0, 0, 0, 0, 0, 0⟩

/-- Modelled from the spec: button-mask bit constants of `GCPadStatus.h`
(absent from the provided sources); the numeric values are the fixed bit
positions of the pad button word. -/
def PAD_BUTTON_LEFT : Nat := 0x0001

/-- Modelled from the spec: see `PAD_BUTTON_LEFT`. -/
def PAD_BUTTON_RIGHT : Nat := 0x0002

/-- Modelled from the spec: see `PAD_BUTTON_LEFT`. -/
def PAD_BUTTON_DOWN : Nat := 0x0004

/-- Modelled from the spec: see `PAD_BUTTON_LEFT`. -/
def PAD_BUTTON_UP : Nat := 0x0008

/-- Modelled from the spec: see `PAD_BUTTON_LEFT`. -/
def PAD_TRIGGER_Z : Nat := 0x0010

/-- Modelled from the spec: see `PAD_BUTTON_LEFT`. -/
def PAD_TRIGGER_R : Nat := 0x0020

/-- Modelled from the spec: see `PAD_BUTTON_LEFT`. -/
def PAD_TRIGGER_L : Nat := 0x0040

/-- Modelled from the spec: see `PAD_BUTTON_LEFT`. -/
def PAD_BUTTON_A : Nat := 0x0100

/-- Modelled from the spec: see `PAD_BUTTON_LEFT`. -/
def PAD_BUTTON_B : Nat := 0x0200

/-- Modelled from the spec: see `PAD_BUTTON_LEFT`. -/
def PAD_BUTTON_X : Nat := 0x0400

/-- Modelled from the spec: see `PAD_BUTTON_LEFT`. -/
def PAD_BUTTON_Y : Nat := 0x0800

/-- Modelled from the spec: see `PAD_BUTTON_LEFT`. -/
def PAD_BUTTON_START : Nat := 0x1000

/-- Modelled from the spec: the one-shot origin flag bit
(`PAD_GET_ORIGIN` of `GCPadStatus.h`). -/
def PAD_GET_ORIGIN : Nat := 0x2000

/-- Modelled from the spec: the explicit error-status bit
(`PAD_ERR_STATUS` of `GCPadStatus.h`). -/
def PAD_ERR_STATUS : Nat := 0x8000

/-- `NO_ADAPTER_DETECTED` (`s_status` value 0). -/
def NO_ADAPTER_DETECTED : Int := 0

/-- `ADAPTER_DETECTED` (`s_status` value 1). -/
def ADAPTER_DETECTED : Int := 1

/-- Modelled from the spec: `SerialInterface::SIDEVICE_WIIU_ADAPTER`, the
configuration value selecting this adapter for a port (`SI_Device.h` is not
part of the provided sources; only its distinctness from other values
matters). -/
def SIDEVICE_WIIU_ADAPTER : Nat := 12

/-- `LIBUSB_DT_HID`, the HID descriptor-type marker expected as the first
byte of every input payload. -/
def LIBUSB_DT_HID : Nat := 0x21

/-- `CONTROLER_INPUT_PAYLOAD_EXPECTED_SIZE` (37 bytes). -/
def CONTROLER_INPUT_PAYLOAD_EXPECTED_SIZE : Int := 37

/-- The file-scope mutable state of the translation unit (libusb branch):
adapter status, device handle, per-port controller-type nibbles and rumble
bytes, the shared input buffer with its recorded size, thread/signal/callback
bookkeeping and the configuration snapshot.  The controller type is kept as
the raw nibble value, mirroring `static_cast<ControllerType>(b >> 4)` on the
`u8`-backed enum (`None = 0`, `Wired = 1`, `Wireless = 2`; other nibble
values pass through the cast unchanged). -/
structure AdapterState where
  status : Int
  handle : Bool
  controller_type : Ports Nat
  controller_rumble : Ports Nat
  controller_payload : List Nat
  controller_payload_size : Int
  adapter_thread_running : Bool
  rumble_signal_count : Nat
  has_callback : Bool
  callback_count : Nat
  last_init : Nat
  config_callback_id : Option Nat
  libusb_context_gen : Nat
  context_valid : Bool
  scan_thread_running : Bool
  config_si_device_type : Ports Nat
  config_rumble_enabled : Ports Bool
deriving DecidableEq, Repr

/-- `UseAdapter()`: true when any configured SI device is the WiiU
adapter (`std::any_of` over `s_config_si_device_type`). -/
def UseAdapter (s : AdapterState) : Bool :=
  s.config_si_device_type.toList.any (fun d => d == SIDEVICE_WIIU_ADAPTER)

/-- One `if (b & (1 << k)) pad.button |= K;` step of the button decode:
or the constant into the accumulator when the condition byte has the bit. -/
def orIf (c : Bool) (k acc : Nat) : Nat :=
  if c then acc ||| k else acc

/-- The digital-button decode of `Input` (lines 754-779): the twelve
`if (b & (1 << k)) pad.button |= K;` steps applied in source order to a
zero accumulator. -/
def decodeButtons (b1 b2 : Nat) : Nat :=
  orIf (b2 &&& (1 <<< 3) != 0) PAD_TRIGGER_L
    (orIf (b2 &&& (1 <<< 2) != 0) PAD_TRIGGER_R
      (orIf (b2 &&& (1 <<< 1) != 0) PAD_TRIGGER_Z
        (orIf (b2 &&& (1 <<< 0) != 0) PAD_BUTTON_START
          (orIf (b1 &&& (1 <<< 7) != 0) PAD_BUTTON_UP
            (orIf (b1 &&& (1 <<< 6) != 0) PAD_BUTTON_DOWN
              (orIf (b1 &&& (1 <<< 5) != 0) PAD_BUTTON_RIGHT
                (orIf (b1 &&& (1 <<< 4) != 0) PAD_BUTTON_LEFT
                  (orIf (b1 &&& (1 <<< 3) != 0) PAD_BUTTON_Y
                    (orIf (b1 &&& (1 <<< 2) != 0) PAD_BUTTON_X
                      (orIf (b1 &&& (1 <<< 1) != 0) PAD_BUTTON_B
                        (orIf (b1 &&& (1 <<< 0) != 0) PAD_BUTTON_A 0)))))))))))

/-- `Input(chan)` (lines 695-801, libusb branch): early-outs when the
adapter is not configured for use, has no open handle, or is not detected;
copies the shared payload under lock; validates size and HID marker; on
success decodes the 9-byte record of the requested channel, updating the
tracked controller type of that channel.  The Boolean parameter is
`Core::WantsDeterminism()`.  Returns the decoded `GCPadStatus` together
with the state after the call. -/
def Input (wantsDeterminism : Bool) (s : AdapterState) (chan : Fin 4) :
    GCPadStatus × AdapterState :=
  if !UseAdapter s then (defaultPad, s)
  else if !s.handle || s.status != ADAPTER_DETECTED then (defaultPad, s)
  else
    let copy := s.controller_payload
    let payload_size := s.controller_payload_size
    if payload_size != CONTROLER_INPUT_PAYLOAD_EXPECTED_SIZE
        || copy.getD 0 0 != LIBUSB_DT_HID then
      (defaultPad, s)
    else
      let type := copy.getD (1 + 9 * chan.val) 0 >>> 4
      let get_origin := type != 0 && s.controller_type.get chan == 0
      let s1 : AdapterState :=
        { s with controller_type := s.controller_type.set chan type }
      if s1.controller_type.get chan != 0 then
        let b1 := copy.getD (1 + 9 * chan.val + 1) 0
        let b2 := copy.getD (1 + 9 * chan.val + 2) 0
        let btn := decodeButtons b1 b2
        let btn := if get_origin then btn ||| PAD_GET_ORIGIN else btn
        ({ button := btn,
           stickX := copy.getD (1 + 9 * chan.val + 3) 0,
           stickY := copy.getD (1 + 9 * chan.val + 4) 0,
           substickX := copy.getD (1 + 9 * chan.val + 5) 0,
           substickY := copy.getD (1 + 9 * chan.val + 6) 0,
           triggerLeft := copy.getD (1 + 9 * chan.val + 7) 0,
           triggerRight := copy.getD (1 + 9 * chan.val + 8) 0 }, s1)
      else if !wantsDeterminism then
        ({ defaultPad with button := PAD_ERR_STATUS }, s1)
      else
        (defaultPad, s1)

/-- `DeviceConnected(chan)` (lines 803-806). -/
def DeviceConnected (s : AdapterState) (chan : Fin 4) : Bool :=
  s.controller_type.get chan != 0

/-- `Output(chan, rumble_command)` (lines 863-895, libusb branch): early-outs
when the adapter is not configured for use, rumble is disabled for the
channel, or no handle is open; otherwise stages the command byte and signals
the write thread unless the command is unchanged or the channel's tracked
controller type is wireless. -/
def Output (s : AdapterState) (chan : Fin 4) (rumble_command : Nat) :
    AdapterState :=
  if !UseAdapter s || !s.config_rumble_enabled.get chan then s
  else if !s.handle then s
  else if rumble_command != s.controller_rumble.get chan
      && s.controller_type.get chan != 2 then
    { s with controller_rumble := s.controller_rumble.set chan rumble_command,
             rumble_signal_count := s.rumble_signal_count + 1 }
  else s

/-- `Reset()` (lines 651-693, libusb branch), under single-threaded
semantics (the `try_lock` on the uncontended init mutex succeeds): no-op
unless the adapter is currently detected; otherwise stops and joins the I/O
threads (waking the write thread once), clears every tracked controller
type, resets the status, releases the handle and invokes the status-change
callback when one is registered. -/
def Reset (s : AdapterState) : AdapterState :=
  if s.status != ADAPTER_DETECTED then s
  else
    let s1 :=
      if s.adapter_thread_running then
        { s with adapter_thread_running := false,
                 rumble_signal_count := s.rumble_signal_count + 1 }
      else s
    let s2 := { s1 with controller_type := Ports.fill 0,
                        status := NO_ADAPTER_DETECTED }
    let s3 := if s2.handle then { s2 with handle := false } else s2
    if s3.has_callback then
      { s3 with callback_count := s3.callback_count + 1 }
    else s3

/-- The 5-byte rumble payload built by the write thread (lines 261-267):
opcode `0x11` followed by the four staged per-port command bytes. -/
def writeThreadPayload (r : Ports Nat) : List Nat :=
  [0x11, r.p0, r.p1, r.p2, r.p3]

/-- `ResetRumbleLockNeeded()` (lines 842-860): no-op without an open,
detected, configured adapter; otherwise zeroes the staged rumble bytes and
sends one rumble payload.  Returns the new state and the USB writes made. -/
def ResetRumbleLockNeeded (s : AdapterState) :
    AdapterState × List (List Nat) :=
  if !UseAdapter s || (!s.handle || s.status != ADAPTER_DETECTED) then (s, [])
  else
    let s1 := { s with controller_rumble := Ports.fill 0 }
    (s1, [writeThreadPayload s1.controller_rumble])

/-- `AddGCAdapter(device)` (lines 591-625), run after a successful claim:
sends the single-byte `0x13` init payload, starts the I/O threads, marks
the adapter detected, invokes the status callback and resets rumble.
Endpoint-descriptor scanning is a transport detail and not modelled.
Returns the new state and the trace of USB writes, in order. -/
def AddGCAdapter (s : AdapterState) : AdapterState × List (List Nat) :=
  let initWrites : List (List Nat) := [[0x13]]
  let s1 := { s with adapter_thread_running := true }
  let s2 := { s1 with status := ADAPTER_DETECTED }
  let s3 :=
    if s2.has_callback then { s2 with callback_count := s2.callback_count + 1 }
    else s2
  let r := ResetRumbleLockNeeded s3
  (r.1, initWrites ++ r.2)

/-- The complete trace of output-endpoint writes of a session: the writes
made by `AddGCAdapter` right after the claim, followed by one write-thread
payload per wake-up, built from the staged rumble bytes current at that
wake-up (lines 254-269). -/
def sessionWriteTrace (s : AdapterState) (wakes : List (Ports Nat)) :
    List (List Nat) :=
  (AddGCAdapter s).2 ++ wakes.map writeThreadPayload

/-- `LIBUSB_ERROR_ACCESS`. -/
def LIBUSB_ERROR_ACCESS : Int := -3

/-- `LIBUSB_ERROR_NOT_FOUND`. -/
def LIBUSB_ERROR_NOT_FOUND : Int := -5

/-- `LIBUSB_ERROR_NOT_SUPPORTED`. -/
def LIBUSB_ERROR_NOT_SUPPORTED : Int := -12

/-- A candidate USB device as seen through the transport library: whether
its descriptor can be read, its vendor/product identifiers, and the return
codes the transport would give the driver for open, kernel-driver detach
and interface claim. -/
structure UsbDevice where
  desc_read_failed : Bool
  idVendor : Nat
  idProduct : Nat
  open_result : Int
  kernel_driver_active : Bool
  detach_result : Int
  claim_result : Int
deriving DecidableEq, Repr

/-- `CheckDeviceAccess(device)` (lines 507-589, non-Apple build): rejects a
device whose descriptor cannot be read or whose vendor/product pair is not
`0x057e`/`0x0337`; otherwise opens it (capturing failures into `s_status`
through the scope guard), detaches a conflicting kernel driver, and claims
interface 0, closing the handle again on any failure. -/
def CheckDeviceAccess (s : AdapterState) (d : UsbDevice) :
    Bool × AdapterState :=
  if d.desc_read_failed then (false, s)
  else if d.idVendor != 0x057e || d.idProduct != 0x0337 then (false, s)
  else if d.open_result == LIBUSB_ERROR_ACCESS then
    (false, { s with status := LIBUSB_ERROR_ACCESS })
  else if d.open_result != 0 then
    (false, { s with status := d.open_result })
  else
    let s1 := { s with handle := true }
    let detach_failed := d.kernel_driver_active
      && (decide (d.detach_result < 0)
          && (d.detach_result != LIBUSB_ERROR_NOT_FOUND
              && d.detach_result != LIBUSB_ERROR_NOT_SUPPORTED))
    if detach_failed then
      (false, { s1 with handle := false, status := d.detach_result })
    else if d.claim_result != 0 then
      (false, { s1 with handle := false, status := d.claim_result })
    else
      (true, s1)

/-- `RefreshConfig()` (lines 400-407): copies the per-port SI device kinds
and rumble-enabled flags from the external configuration store (here passed
as parameters) into the snapshot. -/
def RefreshConfig (cfg_si : Ports Nat) (cfg_rumble : Ports Bool)
    (s : AdapterState) : AdapterState :=
  { s with config_si_device_type := cfg_si, config_rumble_enabled := cfg_rumble }

/-- `StartScanThread()` (lines 446-456): no-op when the scan thread is
already running or the libusb context is invalid; otherwise starts it. -/
def StartScanThread (s : AdapterState) : AdapterState :=
  if s.scan_thread_running then s
  else if !s.context_valid then s
  else { s with scan_thread_running := true }

/-- Unsigned 64-bit subtraction `a - b` with wraparound, as performed on
the `u64` tick counters in `Init`. -/
def u64sub (a b : Nat) : Nat :=
  (a + (2 ^ 64 - b % 2 ^ 64)) % 2 ^ 64

/-- `Core::State::Uninitialized` (value per `Core.h`; only the identity of
the two pre-running states matters here). -/
def CORE_STATE_UNINITIALIZED : Nat := 0

/-- `Core::State::Starting`. -/
def CORE_STATE_STARTING : Nat := 1

/-- The part of `Init()` after the early returns (lines 430-444): clear the
status, subscribe the configuration callback if not yet subscribed (the
fresh subscription id is a parameter), refresh the configuration snapshot
and start scanning when the adapter is configured for use. -/
def InitTail (cfg_si : Ports Nat) (cfg_rumble : Ports Bool) (fresh_id : Nat)
    (s : AdapterState) : AdapterState :=
  let s1 := { s with status := NO_ADAPTER_DETECTED }
  let s2 :=
    if s1.config_callback_id = none then
      { s1 with config_callback_id := some fresh_id }
    else s1
  let s3 := RefreshConfig cfg_si cfg_rumble s2
  if UseAdapter s3 then StartScanThread s3 else s3

/-- `Init()` (lines 409-444, libusb branch): no-op while a handle is open;
otherwise recreates the libusb context (generation counter bump; validity
of the fresh context is a parameter) and, while the core is past the
`Uninitialized`/`Starting` states, suppresses calls within one emulated
second (`ticks` and `tps` are `CoreTiming::GetTicks()` and
`SystemTimers::GetTicksPerSecond()`). -/
def Init (core_state ticks tps : Nat) (fresh_ctx_valid : Bool)
    (cfg_si : Ports Nat) (cfg_rumble : Ports Bool) (fresh_id : Nat)
    (s : AdapterState) : AdapterState :=
  if s.handle then s
  else
    let s1 := { s with libusb_context_gen := s.libusb_context_gen + 1,
                       context_valid := fresh_ctx_valid }
    if core_state ≠ CORE_STATE_UNINITIALIZED ∧ core_state ≠ CORE_STATE_STARTING then
      if u64sub ticks s1.last_init < tps then s1
      else InitTail cfg_si cfg_rumble fresh_id { s1 with last_init := ticks }
    else
      InitTail cfg_si cfg_rumble fresh_id s1

/-- Byte `k` of the 9-byte record of channel `chan` inside the shared
payload (`controller_payload_copy[1 + 9 * chan + k]`). -/
def portByte (s : AdapterState) (chan : Fin 4) (k : Nat) : Nat :=
  s.controller_payload.getD (1 + 9 * chan.val + k) 0

lemma Ports.get_set_self {α : Type} (v : Ports α) (i : Fin 4) (x : α) :
    (v.set i x).get i = x := by
  fin_cases i <;> rfl

lemma Ports.get_set_ne {α : Type} (v : Ports α) (i j : Fin 4) (x : α)
    (h : j ≠ i) : (v.set i x).get j = v.get j := by
  fin_cases i <;> fin_cases j <;> simp_all [Ports.get, Ports.set]

lemma Ports.set_set {α : Type} (v : Ports α) (i : Fin 4) (x y : α) :
    (v.set i x).set i y = v.set i y := by
  fin_cases i <;> rfl

lemma orIf_testBit (c : Bool) (k x i : Nat) :
    (orIf c k x).testBit i = (x.testBit i || (c && k.testBit i)) := by
  cases c <;> simp [orIf, Nat.testBit_lor]

lemma orIf_lt {n : Nat} (c : Bool) {k acc : Nat} (hk : k < 2 ^ n)
    (hacc : acc < 2 ^ n) : orIf c k acc < 2 ^ n := by
  cases c
  · simpa [orIf] using hacc
  · simpa [orIf] using Nat.or_lt_two_pow hacc hk

lemma and_shift_ne (b k : Nat) : (b &&& (1 <<< k) != 0) = b.testBit k := by
  rw [Nat.one_shiftLeft, Nat.and_two_pow]
  cases h : b.testBit k
  · simp
  · simp [(Nat.two_pow_pos k).ne']

lemma decodeButtons_lt (b1 b2 : Nat) : decodeButtons b1 b2 < 2 ^ 13 := by
  unfold decodeButtons
  repeat
    apply orIf_lt
    case hk =>
      norm_num [PAD_BUTTON_A, PAD_BUTTON_B, PAD_BUTTON_X, PAD_BUTTON_Y,
        PAD_BUTTON_LEFT, PAD_BUTTON_RIGHT, PAD_BUTTON_DOWN, PAD_BUTTON_UP,
        PAD_BUTTON_START, PAD_TRIGGER_Z, PAD_TRIGGER_R, PAD_TRIGGER_L]
  norm_num

lemma decodeButtons_testBit_high (b1 b2 k : Nat) (hk : 13 ≤ k) :
    (decodeButtons b1 b2).testBit k = false :=
  Nat.testBit_eq_false_of_lt (lt_of_lt_of_le (decodeButtons_lt b1 b2)
    (Nat.pow_le_pow_right (by norm_num) hk))

lemma decodeButtons_bitA (b1 b2 : Nat) :
    (decodeButtons b1 b2).testBit 8 = b1.testBit 0 := by
  simp only [decodeButtons, orIf_testBit, and_shift_ne, Nat.zero_testBit,
    PAD_BUTTON_LEFT, PAD_BUTTON_RIGHT, PAD_BUTTON_DOWN, PAD_BUTTON_UP,
    PAD_TRIGGER_Z, PAD_TRIGGER_R, PAD_TRIGGER_L, PAD_BUTTON_A, PAD_BUTTON_B,
    PAD_BUTTON_X, PAD_BUTTON_Y, PAD_BUTTON_START]
  norm_num [Nat.testBit_to_div_mod]

lemma decodeButtons_bitB (b1 b2 : Nat) :
    (decodeButtons b1 b2).testBit 9 = b1.testBit 1 := by
  simp only [decodeButtons, orIf_testBit, and_shift_ne, Nat.zero_testBit,
    PAD_BUTTON_LEFT, PAD_BUTTON_RIGHT, PAD_BUTTON_DOWN, PAD_BUTTON_UP,
    PAD_TRIGGER_Z, PAD_TRIGGER_R, PAD_TRIGGER_L, PAD_BUTTON_A, PAD_BUTTON_B,
    PAD_BUTTON_X, PAD_BUTTON_Y, PAD_BUTTON_START]
  norm_num [Nat.testBit_to_div_mod]

lemma decodeButtons_bitX (b1 b2 : Nat) :
    (decodeButtons b1 b2).testBit 10 = b1.testBit 2 := by
  simp only [decodeButtons, orIf_testBit, and_shift_ne, Nat.zero_testBit,
    PAD_BUTTON_LEFT, PAD_BUTTON_RIGHT, PAD_BUTTON_DOWN, PAD_BUTTON_UP,
    PAD_TRIGGER_Z, PAD_TRIGGER_R, PAD_TRIGGER_L, PAD_BUTTON_A, PAD_BUTTON_B,
    PAD_BUTTON_X, PAD_BUTTON_Y, PAD_BUTTON_START]
  norm_num [Nat.testBit_to_div_mod]

lemma decodeButtons_bitY (b1 b2 : Nat) :
    (decodeButtons b1 b2).testBit 11 = b1.testBit 3 := by
  simp only [decodeButtons, orIf_testBit, and_shift_ne, Nat.zero_testBit,
    PAD_BUTTON_LEFT, PAD_BUTTON_RIGHT, PAD_BUTTON_DOWN, PAD_BUTTON_UP,
    PAD_TRIGGER_Z, PAD_TRIGGER_R, PAD_TRIGGER_L, PAD_BUTTON_A, PAD_BUTTON_B,
    PAD_BUTTON_X, PAD_BUTTON_Y, PAD_BUTTON_START]
  norm_num [Nat.testBit_to_div_mod]

lemma decodeButtons_bitLeft (b1 b2 : Nat) :
    (decodeButtons b1 b2).testBit 0 = b1.testBit 4 := by
  simp only [decodeButtons, orIf_testBit, and_shift_ne, Nat.zero_testBit,
    PAD_BUTTON_LEFT, PAD_BUTTON_RIGHT, PAD_BUTTON_DOWN, PAD_BUTTON_UP,
    PAD_TRIGGER_Z, PAD_TRIGGER_R, PAD_TRIGGER_L, PAD_BUTTON_A, PAD_BUTTON_B,
    PAD_BUTTON_X, PAD_BUTTON_Y, PAD_BUTTON_START]
  norm_num [Nat.testBit_to_div_mod]

lemma decodeButtons_bitRight (b1 b2 : Nat) :
    (decodeButtons b1 b2).testBit 1 = b1.testBit 5 := by
  simp only [decodeButtons, orIf_testBit, and_shift_ne, Nat.zero_testBit,
    PAD_BUTTON_LEFT, PAD_BUTTON_RIGHT, PAD_BUTTON_DOWN, PAD_BUTTON_UP,
    PAD_TRIGGER_Z, PAD_TRIGGER_R, PAD_TRIGGER_L, PAD_BUTTON_A, PAD_BUTTON_B,
    PAD_BUTTON_X, PAD_BUTTON_Y, PAD_BUTTON_START]
  norm_num [Nat.testBit_to_div_mod]

lemma decodeButtons_bitDown (b1 b2 : Nat) :
    (decodeButtons b1 b2).testBit 2 = b1.testBit 6 := by
  simp only [decodeButtons, orIf_testBit, and_shift_ne, Nat.zero_testBit,
    PAD_BUTTON_LEFT, PAD_BUTTON_RIGHT, PAD_BUTTON_DOWN, PAD_BUTTON_UP,
    PAD_TRIGGER_Z, PAD_TRIGGER_R, PAD_TRIGGER_L, PAD_BUTTON_A, PAD_BUTTON_B,
    PAD_BUTTON_X, PAD_BUTTON_Y, PAD_BUTTON_START]
  norm_num [Nat.testBit_to_div_mod]

lemma decodeButtons_bitUp (b1 b2 : Nat) :
    (decodeButtons b1 b2).testBit 3 = b1.testBit 7 := by
  simp only [decodeButtons, orIf_testBit, and_shift_ne, Nat.zero_testBit,
    PAD_BUTTON_LEFT, PAD_BUTTON_RIGHT, PAD_BUTTON_DOWN, PAD_BUTTON_UP,
    PAD_TRIGGER_Z, PAD_TRIGGER_R, PAD_TRIGGER_L, PAD_BUTTON_A, PAD_BUTTON_B,
    PAD_BUTTON_X, PAD_BUTTON_Y, PAD_BUTTON_START]
  norm_num [Nat.testBit_to_div_mod]

lemma decodeButtons_bitStart (b1 b2 : Nat) :
    (decodeButtons b1 b2).testBit 12 = b2.testBit 0 := by
  simp only [decodeButtons, orIf_testBit, and_shift_ne, Nat.zero_testBit,
    PAD_BUTTON_LEFT, PAD_BUTTON_RIGHT, PAD_BUTTON_DOWN, PAD_BUTTON_UP,
    PAD_TRIGGER_Z, PAD_TRIGGER_R, PAD_TRIGGER_L, PAD_BUTTON_A, PAD_BUTTON_B,
    PAD_BUTTON_X, PAD_BUTTON_Y, PAD_BUTTON_START]
  norm_num [Nat.testBit_to_div_mod]

lemma decodeButtons_bitZ (b1 b2 : Nat) :
    (decodeButtons b1 b2).testBit 4 = b2.testBit 1 := by
  simp only [decodeButtons, orIf_testBit, and_shift_ne, Nat.zero_testBit,
    PAD_BUTTON_LEFT, PAD_BUTTON_RIGHT, PAD_BUTTON_DOWN, PAD_BUTTON_UP,
    PAD_TRIGGER_Z, PAD_TRIGGER_R, PAD_TRIGGER_L, PAD_BUTTON_A, PAD_BUTTON_B,
    PAD_BUTTON_X, PAD_BUTTON_Y, PAD_BUTTON_START]
  norm_num [Nat.testBit_to_div_mod]

lemma decodeButtons_bitR (b1 b2 : Nat) :
    (decodeButtons b1 b2).testBit 5 = b2.testBit 2 := by
  simp only [decodeButtons, orIf_testBit, and_shift_ne, Nat.zero_testBit,
    PAD_BUTTON_LEFT, PAD_BUTTON_RIGHT, PAD_BUTTON_DOWN, PAD_BUTTON_UP,
    PAD_TRIGGER_Z, PAD_TRIGGER_R, PAD_TRIGGER_L, PAD_BUTTON_A, PAD_BUTTON_B,
    PAD_BUTTON_X, PAD_BUTTON_Y, PAD_BUTTON_START]
  norm_num [Nat.testBit_to_div_mod]

lemma decodeButtons_bitL (b1 b2 : Nat) :
    (decodeButtons b1 b2).testBit 6 = b2.testBit 3 := by
  simp only [decodeButtons, orIf_testBit, and_shift_ne, Nat.zero_testBit,
    PAD_BUTTON_LEFT, PAD_BUTTON_RIGHT, PAD_BUTTON_DOWN, PAD_BUTTON_UP,
    PAD_TRIGGER_Z, PAD_TRIGGER_R, PAD_TRIGGER_L, PAD_BUTTON_A, PAD_BUTTON_B,
    PAD_BUTTON_X, PAD_BUTTON_Y, PAD_BUTTON_START]
  norm_num [Nat.testBit_to_div_mod]

lemma decodeButtons_bit7 (b1 b2 : Nat) :
    (decodeButtons b1 b2).testBit 7 = false := by
  simp only [decodeButtons, orIf_testBit, and_shift_ne, Nat.zero_testBit,
    PAD_BUTTON_LEFT, PAD_BUTTON_RIGHT, PAD_BUTTON_DOWN, PAD_BUTTON_UP,
    PAD_TRIGGER_Z, PAD_TRIGGER_R, PAD_TRIGGER_L, PAD_BUTTON_A, PAD_BUTTON_B,
    PAD_BUTTON_X, PAD_BUTTON_Y, PAD_BUTTON_START]
  norm_num [Nat.testBit_to_div_mod]

lemma Input_invalid (d : Bool) (s : AdapterState) (chan : Fin 4)
    (h : s.controller_payload_size ≠ CONTROLER_INPUT_PAYLOAD_EXPECTED_SIZE ∨
         s.controller_payload.getD 0 0 ≠ LIBUSB_DT_HID) :
    Input d s chan = (defaultPad, s) := by
  simp only [Input]
  split_ifs with h1 h2 h3 h4 h5 h6
  any_goals rfl
  all_goals exfalso
  all_goals simp only [Bool.or_eq_true, bne_iff_ne] at h3
  all_goals push_neg at h3
  all_goals rcases h with h | h
  all_goals first | exact h h3.1 | exact h h3.2

lemma Input_decode_nonzero (d : Bool) (s : AdapterState) (chan : Fin 4)
    (hu : UseAdapter s = true) (hh : s.handle = true)
    (hs : s.status = ADAPTER_DETECTED)
    (hsz : s.controller_payload_size = CONTROLER_INPUT_PAYLOAD_EXPECTED_SIZE)
    (hhd : s.controller_payload.getD 0 0 = LIBUSB_DT_HID)
    (hty : portByte s chan 0 >>> 4 ≠ 0) :
    Input d s chan =
      ({ button :=
           (if portByte s chan 0 >>> 4 != 0 && s.controller_type.get chan == 0
            then decodeButtons (portByte s chan 1) (portByte s chan 2) ||| PAD_GET_ORIGIN
            else decodeButtons (portByte s chan 1) (portByte s chan 2)),
         stickX := portByte s chan 3,
         stickY := portByte s chan 4,
         substickX := portByte s chan 5,
         substickY := portByte s chan 6,
         triggerLeft := portByte s chan 7,
         triggerRight := portByte s chan 8 },
       { s with controller_type :=
           s.controller_type.set chan (portByte s chan 0 >>> 4) }) := by
  simp only [portByte] at hty
  simp at hty hhd
  simp [Input, portByte, hu, hh, hs, hsz, hty, hhd, Ports.get_set_self]

lemma Input_decode_zero (d : Bool) (s : AdapterState) (chan : Fin 4)
    (hu : UseAdapter s = true) (hh : s.handle = true)
    (hs : s.status = ADAPTER_DETECTED)
    (hsz : s.controller_payload_size = CONTROLER_INPUT_PAYLOAD_EXPECTED_SIZE)
    (hhd : s.controller_payload.getD 0 0 = LIBUSB_DT_HID)
    (hty : portByte s chan 0 >>> 4 = 0) :
    Input d s chan =
      ((if !d then { defaultPad with button := PAD_ERR_STATUS } else defaultPad),
       { s with controller_type := s.controller_type.set chan 0 }) := by
  simp only [portByte] at hty
  simp at hty hhd
  cases d <;> simp [Input, portByte, hu, hh, hs, hsz, hty, hhd, Ports.get_set_self]

/-- The origin-flag `or` does not affect button bits other than bit 13. -/
lemma origin_or_testBit (g : Bool) (btn i : Nat) (hi : i ≠ 13) :
    (if g then btn ||| PAD_GET_ORIGIN else btn).testBit i = btn.testBit i := by
  cases g
  · rfl
  · have h13 : PAD_GET_ORIGIN = 2 ^ 13 := by norm_num [PAD_GET_ORIGIN]
    simp [Nat.testBit_lor, h13, Nat.testBit_two_pow_of_ne (Ne.symm hi)]

/-- The digital-button decode never produces the origin bit. -/
lemma decodeButtons_and_origin (b1 b2 : Nat) :
    decodeButtons b1 b2 &&& PAD_GET_ORIGIN = 0 := by
  have h13 : PAD_GET_ORIGIN = 2 ^ 13 := by norm_num [PAD_GET_ORIGIN]
  rw [h13, Nat.and_two_pow, decodeButtons_testBit_high b1 b2 13 le_rfl]
  rfl

/-- A concrete 37-byte payload: HID marker header, port 0 record of type
Wired with the A-button bit set and distinctive analog bytes, ports 1-3
all zero. -/
def examplePayload : List Nat :=
  [0x21, 0x10, 0x01, 0x00, 0x80, 0x80, 0x80, 0x80, 0x20, 0x20] ++
    List.replicate 27 0

/-- A concrete state with a claimed, detected session, port 0 configured
for the adapter with rumble enabled, and `examplePayload` delivered. -/
def exampleState : AdapterState :=
  { status := ADAPTER_DETECTED, handle := true,
    controller_type := ⟨0, 0, 0, 0⟩, controller_rumble := ⟨0, 0, 0, 0⟩,
    controller_payload := examplePayload, controller_payload_size := 37,
    adapter_thread_running := true, rumble_signal_count := 0,
    has_callback := true, callback_count := 0,
    last_init := 0, config_callback_id := some 0,
    libusb_context_gen := 1, context_valid := true,
    scan_thread_running := true,
    config_si_device_type := ⟨SIDEVICE_WIIU_ADAPTER, 0, 0, 0⟩,
    config_rumble_enabled := ⟨true, true, true, true⟩ }

/-- C1: for every port, decoding a valid 37-byte payload whose record has
controller type Wired recovers exactly the set buttons (bit 0 of the first
button byte is A, bits 1-7 are B, X, Y, Left, Right, Down, Up; bit 0 of the
second is Start, bits 1-3 are Z, R, L), no other button bits apart from the
origin flag, the six analog bytes verbatim, and reports the controller
connected. -/
theorem input_wired_decodes_buttons_exactly (d : Bool) (s : AdapterState)
    (chan : Fin 4)
    (hu : UseAdapter s = true) (hh : s.handle = true)
    (hs : s.status = ADAPTER_DETECTED)
    (hsz : s.controller_payload_size = CONTROLER_INPUT_PAYLOAD_EXPECTED_SIZE)
    (hhd : s.controller_payload.getD 0 0 = LIBUSB_DT_HID)
    (hw : portByte s chan 0 >>> 4 = 1) :
    ((Input d s chan).1.button.testBit 8 = (portByte s chan 1).testBit 0 ∧
     (Input d s chan).1.button.testBit 9 = (portByte s chan 1).testBit 1 ∧
     (Input d s chan).1.button.testBit 10 = (portByte s chan 1).testBit 2 ∧
     (Input d s chan).1.button.testBit 11 = (portByte s chan 1).testBit 3 ∧
     (Input d s chan).1.button.testBit 0 = (portByte s chan 1).testBit 4 ∧
     (Input d s chan).1.button.testBit 1 = (portByte s chan 1).testBit 5 ∧
     (Input d s chan).1.button.testBit 2 = (portByte s chan 1).testBit 6 ∧
     (Input d s chan).1.button.testBit 3 = (portByte s chan 1).testBit 7) ∧
    ((Input d s chan).1.button.testBit 12 = (portByte s chan 2).testBit 0 ∧
     (Input d s chan).1.button.testBit 4 = (portByte s chan 2).testBit 1 ∧
     (Input d s chan).1.button.testBit 5 = (portByte s chan 2).testBit 2 ∧
     (Input d s chan).1.button.testBit 6 = (portByte s chan 2).testBit 3) ∧
    ((Input d s chan).1.button.testBit 7 = false ∧
     (∀ k, 14 ≤ k → (Input d s chan).1.button.testBit k = false)) ∧
    ((Input d s chan).1.stickX = portByte s chan 3 ∧
     (Input d s chan).1.stickY = portByte s chan 4 ∧
     (Input d s chan).1.substickX = portByte s chan 5 ∧
     (Input d s chan).1.substickY = portByte s chan 6 ∧
     (Input d s chan).1.triggerLeft = portByte s chan 7 ∧
     (Input d s chan).1.triggerRight = portByte s chan 8) ∧
    DeviceConnected (Input d s chan).2 chan = true := by
  have hne : portByte s chan 0 >>> 4 ≠ 0 := by rw [hw]; exact one_ne_zero
  rw [Input_decode_nonzero d s chan hu hh hs hsz hhd hne]
  refine ⟨⟨?_, ?_, ?_, ?_, ?_, ?_, ?_, ?_⟩, ⟨?_, ?_, ?_, ?_⟩, ⟨?_, ?_⟩,
    ⟨rfl, rfl, rfl, rfl, rfl, rfl⟩, ?_⟩
  · exact (origin_or_testBit _ _ 8 (by omega)).trans (decodeButtons_bitA _ _)
  · exact (origin_or_testBit _ _ 9 (by omega)).trans (decodeButtons_bitB _ _)
  · exact (origin_or_testBit _ _ 10 (by omega)).trans (decodeButtons_bitX _ _)
  · exact (origin_or_testBit _ _ 11 (by omega)).trans (decodeButtons_bitY _ _)
  · exact (origin_or_testBit _ _ 0 (by omega)).trans (decodeButtons_bitLeft _ _)
  · exact (origin_or_testBit _ _ 1 (by omega)).trans (decodeButtons_bitRight _ _)
  · exact (origin_or_testBit _ _ 2 (by omega)).trans (decodeButtons_bitDown _ _)
  · exact (origin_or_testBit _ _ 3 (by omega)).trans (decodeButtons_bitUp _ _)
  · exact (origin_or_testBit _ _ 12 (by omega)).trans (decodeButtons_bitStart _ _)
  · exact (origin_or_testBit _ _ 4 (by omega)).trans (decodeButtons_bitZ _ _)
  · exact (origin_or_testBit _ _ 5 (by omega)).trans (decodeButtons_bitR _ _)
  · exact (origin_or_testBit _ _ 6 (by omega)).trans (decodeButtons_bitL _ _)
  · exact (origin_or_testBit _ _ 7 (by omega)).trans (decodeButtons_bit7 _ _)
  · intro k hk
    exact (origin_or_testBit _ _ k (by omega)).trans
      (decodeButtons_testBit_high _ _ k (by omega))
  · simp [DeviceConnected, Ports.get_set_self, hw]

/-- Witness for C1: on the concrete payload with byte 1 upper nibble 1 and
byte 2 bit 0 set, `Input 0` reports the A button pressed and the controller
connected. -/
theorem input_wired_decodes_buttons_exactly_witness :
    UseAdapter exampleState = true ∧
    (Input false exampleState 0).1.button.testBit 8 = true ∧
    DeviceConnected (Input false exampleState 0).2 0 = true := by
  have h := input_wired_decodes_buttons_exactly false exampleState 0
    (by decide) (by decide) (by decide) (by decide) (by decide) (by decide)
  refine ⟨by decide, ?_, h.2.2.2.2⟩
  rw [h.1.1]
  decide

/-- C2: a payload failing validation (wrong recorded size or wrong header
marker) makes `Input` return the neutral pad and leave the whole state,
controller-type tracking included, unchanged, so no port becomes reported
as connected. -/
theorem input_invalid_payload_neutral (d : Bool) (s : AdapterState)
    (chan : Fin 4)
    (h : s.controller_payload_size ≠ CONTROLER_INPUT_PAYLOAD_EXPECTED_SIZE ∨
         s.controller_payload.getD 0 0 ≠ LIBUSB_DT_HID) :
    (Input d s chan).1 = defaultPad ∧
    (Input d s chan).2 = s ∧
    ∀ c : Fin 4, DeviceConnected (Input d s chan).2 c = DeviceConnected s c := by
  rw [Input_invalid d s chan h]
  exact ⟨rfl, rfl, fun c => rfl⟩

/-- Witness for C2: a malformed delivery of recorded length 10 yields the
neutral pad on every port and connects nothing. -/
theorem input_invalid_payload_neutral_witness :
    ((10 : Int) ≠ CONTROLER_INPUT_PAYLOAD_EXPECTED_SIZE) ∧
    (Input false { exampleState with controller_payload_size := 10 } 2).1
      = defaultPad ∧
    DeviceConnected
      (Input false { exampleState with controller_payload_size := 10 } 2).2 0
      = false := by
  have h := input_invalid_payload_neutral false
    { exampleState with controller_payload_size := 10 } 2
    (Or.inl (by decide))
  exact ⟨by decide, h.1, by rw [h.2.2 0]; decide⟩

/-- C7: on a valid payload whose record nibble decodes to `None`, `Input`
returns exactly the error-status bit outside determinism mode and the fully
neutral pad under determinism mode. -/
theorem input_none_error_status (s : AdapterState) (chan : Fin 4)
    (hu : UseAdapter s = true) (hh : s.handle = true)
    (hs : s.status = ADAPTER_DETECTED)
    (hsz : s.controller_payload_size = CONTROLER_INPUT_PAYLOAD_EXPECTED_SIZE)
    (hhd : s.controller_payload.getD 0 0 = LIBUSB_DT_HID)
    (hty : portByte s chan 0 >>> 4 = 0) :
    (Input false s chan).1 = { defaultPad with button := PAD_ERR_STATUS } ∧
    (Input true s chan).1 = defaultPad := by
  constructor
  · rw [Input_decode_zero false s chan hu hh hs hsz hhd hty]
    rfl
  · rw [Input_decode_zero true s chan hu hh hs hsz hhd hty]
    rfl

/-- Witness for C7: port 1 of the concrete payload has nibble `None`; the
non-determinism call reports exactly the error-status bit and the
determinism call reports the neutral pad. -/
theorem input_none_error_status_witness :
    (Input false exampleState 1).1 = { defaultPad with button := PAD_ERR_STATUS } ∧
    (Input true exampleState 1).1 = defaultPad :=
  input_none_error_status exampleState 1 (by decide) (by decide) (by decide)
    (by decide) (by decide) (by decide)

/-- C10: `Input chan` mutates nothing but the tracked controller type of
channel `chan`: every other channel's type, the staged rumble bytes, the
shared payload buffer and size, and the session fields are untouched. -/
theorem input_frame_effect (d : Bool) (s : AdapterState) (chan : Fin 4) :
    ((Input d s chan).2.controller_rumble = s.controller_rumble ∧
     (Input d s chan).2.controller_payload = s.controller_payload ∧
     (Input d s chan).2.controller_payload_size = s.controller_payload_size ∧
     (Input d s chan).2.status = s.status ∧
     (Input d s chan).2.handle = s.handle ∧
     (Input d s chan).2.rumble_signal_count = s.rumble_signal_count) ∧
    ∀ c : Fin 4, c ≠ chan →
      (Input d s chan).2.controller_type.get c = s.controller_type.get c := by
  simp only [Input]
  split_ifs
  all_goals refine ⟨⟨rfl, rfl, rfl, rfl, rfl, rfl⟩, fun c hc => ?_⟩
  all_goals first | rfl | exact Ports.get_set_ne _ _ _ _ hc

/-- Witness for C10: on the concrete state, reading port 0 leaves port 1's
tracked type and the staged rumble bytes untouched. -/
theorem input_frame_effect_witness :
    (Input false exampleState 0).2.controller_type.get 1
      = exampleState.controller_type.get 1 ∧
    (Input false exampleState 0).2.controller_rumble
      = exampleState.controller_rumble :=
  ⟨(input_frame_effect false exampleState 0).2 1 (by decide),
   (input_frame_effect false exampleState 0).1.1⟩

lemma Input_repeat_zero (d : Bool) (s : AdapterState) (chan : Fin 4)
    (hu : UseAdapter s = true) (hh : s.handle = true)
    (hs : s.status = ADAPTER_DETECTED)
    (hsz : s.controller_payload_size = CONTROLER_INPUT_PAYLOAD_EXPECTED_SIZE)
    (hhd : s.controller_payload.getD 0 0 = LIBUSB_DT_HID)
    (hty : portByte s chan 0 >>> 4 = 0) :
    Input d { s with controller_type := s.controller_type.set chan 0 } chan
      = ((if !d then { defaultPad with button := PAD_ERR_STATUS } else defaultPad),
         { s with controller_type := s.controller_type.set chan 0 }) := by
  rw [Input_decode_zero d
    { s with controller_type := s.controller_type.set chan 0 } chan
    (by exact hu) (by exact hh) (by exact hs) (by exact hsz) (by exact hhd)
    (by exact hty)]
  simp [Ports.set_set]

lemma Input_repeat_nonzero (d : Bool) (s : AdapterState) (chan : Fin 4)
    (hu : UseAdapter s = true) (hh : s.handle = true)
    (hs : s.status = ADAPTER_DETECTED)
    (hsz : s.controller_payload_size = CONTROLER_INPUT_PAYLOAD_EXPECTED_SIZE)
    (hhd : s.controller_payload.getD 0 0 = LIBUSB_DT_HID)
    (hty : portByte s chan 0 >>> 4 ≠ 0) :
    Input d
      { s with controller_type :=
          s.controller_type.set chan (portByte s chan 0 >>> 4) } chan
      = ({ button := decodeButtons (portByte s chan 1) (portByte s chan 2),
           stickX := portByte s chan 3, stickY := portByte s chan 4,
           substickX := portByte s chan 5, substickY := portByte s chan 6,
           triggerLeft := portByte s chan 7, triggerRight := portByte s chan 8 },
         { s with controller_type :=
             s.controller_type.set chan (portByte s chan 0 >>> 4) }) := by
  rw [Input_decode_nonzero d
    { s with controller_type :=
        s.controller_type.set chan (portByte s chan 0 >>> 4) } chan
    (by exact hu) (by exact hh) (by exact hs) (by exact hsz) (by exact hhd)
    (by exact hty)]
  simp [portByte, Ports.get_set_self, Ports.set_set, hty]

/-- Counterexample to C3 as stated: on the concrete state, the first and the
second decode of the same valid payload do NOT yield identical `PadState`
values, because the first call carries the one-shot origin flag. -/
theorem input_repeat_not_identical_cex :
    (Input false exampleState 0).1.button &&& PAD_GET_ORIGIN ≠ 0 ∧
    (Input false exampleState 0).1 ≠
      (Input false (Input false exampleState 0).2 0).1 := by
  constructor
  · decide
  · decide

/-- C3 (amended): repeating `Input` over the same valid 37-byte buffer
yields identical `PadState` values except possibly for the one-shot origin
flag, which is set at most on the first call and never re-triggered: the
second result never carries the origin flag, the second call leaves the
state fixed, and the origin flag is set only on a call whose decoded type is
non-`None` while the tracked type was `None`. -/
theorem input_idempotent_mod_origin (d : Bool) (s : AdapterState)
    (chan : Fin 4)
    (hu : UseAdapter s = true) (hh : s.handle = true)
    (hs : s.status = ADAPTER_DETECTED)
    (hsz : s.controller_payload_size = CONTROLER_INPUT_PAYLOAD_EXPECTED_SIZE)
    (hhd : s.controller_payload.getD 0 0 = LIBUSB_DT_HID) :
    ((Input d (Input d s chan).2 chan).1.stickX = (Input d s chan).1.stickX ∧
     (Input d (Input d s chan).2 chan).1.stickY = (Input d s chan).1.stickY ∧
     (Input d (Input d s chan).2 chan).1.substickX = (Input d s chan).1.substickX ∧
     (Input d (Input d s chan).2 chan).1.substickY = (Input d s chan).1.substickY ∧
     (Input d (Input d s chan).2 chan).1.triggerLeft = (Input d s chan).1.triggerLeft ∧
     (Input d (Input d s chan).2 chan).1.triggerRight = (Input d s chan).1.triggerRight) ∧
    ((Input d s chan).1.button = (Input d (Input d s chan).2 chan).1.button ∨
     (Input d s chan).1.button
       = (Input d (Input d s chan).2 chan).1.button ||| PAD_GET_ORIGIN) ∧
    (Input d (Input d s chan).2 chan).1.button &&& PAD_GET_ORIGIN = 0 ∧
    (Input d (Input d s chan).2 chan).2 = (Input d s chan).2 ∧
    ((Input d s chan).1.button &&& PAD_GET_ORIGIN ≠ 0 →
      portByte s chan 0 >>> 4 ≠ 0 ∧ s.controller_type.get chan = 0) := by
  by_cases hty : portByte s chan 0 >>> 4 = 0
  · rw [Input_decode_zero d s chan hu hh hs hsz hhd hty,
      Input_repeat_zero d s chan hu hh hs hsz hhd hty]
    have hbtn : ((if !d then { defaultPad with button := PAD_ERR_STATUS }
        else defaultPad) : GCPadStatus).button &&& PAD_GET_ORIGIN = 0 := by
      cases d <;> decide
    exact ⟨⟨rfl, rfl, rfl, rfl, rfl, rfl⟩, Or.inl rfl, hbtn, rfl,
      fun h => absurd hbtn h⟩
  · rw [Input_decode_nonzero d s chan hu hh hs hsz hhd hty,
      Input_repeat_nonzero d s chan hu hh hs hsz hhd hty]
    refine ⟨⟨rfl, rfl, rfl, rfl, rfl, rfl⟩, ?_, ?_, rfl, ?_⟩
    · cases hg : (portByte s chan 0 >>> 4 != 0 && s.controller_type.get chan == 0)
      · left
        simp [hg]
      · right
        simp [hg]
    · exact decodeButtons_and_origin _ _
    · intro h
      refine ⟨hty, ?_⟩
      cases hg : (portByte s chan 0 >>> 4 != 0 && s.controller_type.get chan == 0)
      · exfalso
        rw [hg] at h
        simp at h
        exact absurd (decodeButtons_and_origin _ _) h
      · have := (Bool.and_eq_true _ _).mp hg
        simpa using this.2

/-- Witness for the amended C3: on the concrete state the second decode
carries no origin flag and leaves the state fixed. -/
theorem input_idempotent_mod_origin_witness :
    (Input false (Input false exampleState 0).2 0).1.button &&& PAD_GET_ORIGIN
      = 0 ∧
    (Input false (Input false exampleState 0).2 0).2
      = (Input false exampleState 0).2 := by
  have h := input_idempotent_mod_origin false exampleState 0 (by decide)
    (by decide) (by decide) (by decide) (by decide)
  exact ⟨h.2.2.1, h.2.2.2.1⟩

/-- The concrete state for the C4 counterexample: port 0 configured for the
adapter with rumble enabled and a non-wireless tracked type, but no open
device handle. -/
def outputCexState : AdapterState := { exampleState with handle := false }

/-- Counterexample to C4 as stated: with the adapter configured for use,
rumble enabled on port 0, a changed command byte and a non-wireless tracked
type, `Output 0 5` still stages nothing and signals nothing, because no
device handle is open. -/
theorem output_no_handle_cex :
    UseAdapter outputCexState = true ∧
    outputCexState.config_rumble_enabled.get 0 = true ∧
    (5 : Nat) ≠ outputCexState.controller_rumble.get 0 ∧
    outputCexState.controller_type.get 0 ≠ 2 ∧
    (Output outputCexState 0 5).controller_rumble.get 0 ≠ 5 ∧
    (Output outputCexState 0 5).rumble_signal_count
      = outputCexState.rumble_signal_count := by
  decide

/-- C4 (amended): `Output` is a no-op unless the adapter is configured for
use, rumble is enabled for the port, and a device handle is open; it skips
the write when the command equals the staged byte or the tracked type is
wireless; otherwise it stages the byte and signals the write thread exactly
once, and an immediately repeated identical call changes nothing. -/
theorem output_rumble_staging (s : AdapterState) (chan : Fin 4) (cmd : Nat) :
    ((UseAdapter s = false ∨ s.config_rumble_enabled.get chan = false) →
        Output s chan cmd = s) ∧
    (s.handle = false → Output s chan cmd = s) ∧
    (UseAdapter s = true → s.config_rumble_enabled.get chan = true →
     s.handle = true →
       ((cmd = s.controller_rumble.get chan ∨
           s.controller_type.get chan = 2) → Output s chan cmd = s) ∧
       (cmd ≠ s.controller_rumble.get chan →
        s.controller_type.get chan ≠ 2 →
          Output s chan cmd =
            { s with
                controller_rumble := s.controller_rumble.set chan cmd,
                rumble_signal_count := s.rumble_signal_count + 1 })) ∧
    Output (Output s chan cmd) chan cmd = Output s chan cmd := by
  refine ⟨?_, ?_, ?_, ?_⟩
  · intro h
    rcases h with h | h <;> simp [Output, h]
  · intro h
    simp [Output, h]
  · intro hu hr hh
    constructor
    · intro h
      rcases h with h | h <;> simp [Output, hu, hr, hh, h]
    · intro hcmd hct
      simp [Output, hu, hr, hh, hcmd, hct]
  · simp only [Output]
    split_ifs <;> simp_all [Ports.get_set_self]

/-- Witness for the amended C4: `Output 0 5` on the concrete claimed state
stages command byte 5 and signals the write thread once, and the repeated
identical call is suppressed. -/
theorem output_rumble_staging_witness :
    (Output exampleState 0 5).controller_rumble.get 0 = 5 ∧
    (Output exampleState 0 5).rumble_signal_count
      = exampleState.rumble_signal_count + 1 ∧
    Output (Output exampleState 0 5) 0 5 = Output exampleState 0 5 := by
  have h := output_rumble_staging exampleState 0 5
  have hup := (h.2.2.1 (by decide) (by decide) (by decide)).2
    (by decide) (by decide)
  refine ⟨?_, ?_, h.2.2.2⟩
  · rw [hup]
    decide
  · rw [hup]

lemma Ports.get_fill {α : Type} (x : α) (i : Fin 4) :
    (Ports.fill x).get i = x := by
  fin_cases i <;> rfl

/-- C5: `Reset` is a no-op (state unchanged, callback not invoked) when no
session is detected, and with a detected session it leaves every port
reported disconnected, status `NotDetected`, and invokes the callback
exactly once (when one is registered). -/
theorem reset_safe_and_disconnects (s : AdapterState) :
    (s.status ≠ ADAPTER_DETECTED → Reset s = s) ∧
    (s.status = ADAPTER_DETECTED →
       (∀ chan : Fin 4, DeviceConnected (Reset s) chan = false) ∧
       (Reset s).status = NO_ADAPTER_DETECTED ∧
       (Reset s).callback_count
         = s.callback_count + (if s.has_callback then 1 else 0)) := by
  constructor
  · intro h
    simp [Reset, bne_iff_ne, h]
  · intro h
    refine ⟨fun chan => ?_, ?_, ?_⟩
    · simp only [Reset, h]
      split_ifs <;> simp_all [DeviceConnected, Ports.get_fill]
    · simp only [Reset, h]
      split_ifs <;> simp_all
    · simp only [Reset, h]
      split_ifs <;> simp_all

/-- Witness for C5: resetting the undetected concrete state is a no-op, and
resetting the detected concrete state disconnects port 0 and invokes the
callback exactly once. -/
theorem reset_safe_and_disconnects_witness :
    Reset { exampleState with status := NO_ADAPTER_DETECTED }
      = { exampleState with status := NO_ADAPTER_DETECTED } ∧
    DeviceConnected (Reset exampleState) 0 = false ∧
    (Reset exampleState).callback_count = exampleState.callback_count + 1 := by
  have h1 := (reset_safe_and_disconnects
    { exampleState with status := NO_ADAPTER_DETECTED }).1 (by decide)
  have h2 := (reset_safe_and_disconnects exampleState).2 (by decide)
  refine ⟨h1, h2.1 0, ?_⟩
  rw [h2.2.2]
  decide

/-- C6: the session write trace opens with the single-byte `0x13` init
payload, every later payload is a 5-byte rumble payload with opcode `0x11`,
and the init payload is sent exactly once. -/
theorem session_init_payload_first (s : AdapterState)
    (wakes : List (Ports Nat)) :
    (sessionWriteTrace s wakes).head? = some [0x13] ∧
    (∀ p ∈ (sessionWriteTrace s wakes).tail,
        p.length = 5 ∧ p.head? = some 0x11) ∧
    (sessionWriteTrace s wakes).count [0x13] = 1 := by
  have hw5 : ∀ w : Ports Nat,
      (writeThreadPayload w).length = 5 ∧
      (writeThreadPayload w).head? = some 0x11 :=
    fun w => ⟨by simp [writeThreadPayload], by simp [writeThreadPayload]⟩
  have htail : ∀ p ∈ (sessionWriteTrace s wakes).tail,
      p.length = 5 ∧ p.head? = some 0x11 := by
    intro p hp
    simp only [sessionWriteTrace, AddGCAdapter, ResetRumbleLockNeeded] at hp
    split_ifs at hp <;> simp at hp <;>
      first
        | (obtain ⟨w, hw, rfl⟩ := hp
           exact hw5 w)
        | (obtain rfl | ⟨w, hw, rfl⟩ := hp <;>
            first
              | exact hw5 (Ports.fill 0)
              | exact hw5 w)
  have hcons : sessionWriteTrace s wakes
      = [0x13] :: (sessionWriteTrace s wakes).tail := by
    simp only [sessionWriteTrace, AddGCAdapter, ResetRumbleLockNeeded]
    split_ifs <;> rfl
  refine ⟨?_, htail, ?_⟩
  · rw [hcons]
    rfl
  · have hne : [0x13] ∉ (sessionWriteTrace s wakes).tail := by
      intro hmem
      have := (htail _ hmem).1
      simp at this
    rw [hcons, List.count_cons]
    simp [List.count_eq_zero.mpr hne]

/-- Witness for C6: on the concrete claimed session with one write-thread
wake-up, the trace starts with `[0x13]`, the staged payload is a 5-byte
`0x11` rumble payload, and the init payload occurs exactly once. -/
theorem session_init_payload_first_witness :
    (sessionWriteTrace exampleState [⟨5, 0, 0, 0⟩]).head? = some [0x13] ∧
    (([0x11, 5, 0, 0, 0] : List Nat).length = 5 ∧
      ([0x11, 5, 0, 0, 0] : List Nat).head? = some 0x11) ∧
    (sessionWriteTrace exampleState [⟨5, 0, 0, 0⟩]).count [0x13] = 1 := by
  have h := session_init_payload_first exampleState [⟨5, 0, 0, 0⟩]
  exact ⟨h.1, h.2.1 [0x11, 5, 0, 0, 0] (by decide), h.2.2⟩

/-- C8: a candidate device with an unreadable descriptor or a
vendor/product pair other than `0x057e`/`0x0337` is rejected with no state
change whatsoever. -/
theorem check_device_access_rejects_nonmatching (s : AdapterState)
    (d : UsbDevice)
    (h : d.desc_read_failed = true ∨ d.idVendor ≠ 0x057e ∨
         d.idProduct ≠ 0x0337) :
    CheckDeviceAccess s d = (false, s) := by
  rcases h with h | h | h
  · simp [CheckDeviceAccess, h]
  · cases hd : d.desc_read_failed <;> simp [CheckDeviceAccess, hd, h]
  · cases hd : d.desc_read_failed <;> simp [CheckDeviceAccess, hd, h]

/-- Witness for C8: a concrete candidate with the wrong vendor id is
rejected and the state is untouched. -/
theorem check_device_access_rejects_nonmatching_witness :
    CheckDeviceAccess exampleState
      { desc_read_failed := false, idVendor := 0x1234, idProduct := 0x0337,
        open_result := 0, kernel_driver_active := false, detach_result := 0,
        claim_result := 0 } = (false, exampleState) :=
  check_device_access_rejects_nonmatching exampleState _
    (Or.inr (Or.inl (by decide)))

/-- A concrete state with no open session, last initialised at tick 50. -/
def initSuppressState : AdapterState :=
  { exampleState with handle := false, last_init := 50 }

/-- C9: `Init` while a handle is open is a no-op, and while the core runs
(past `Uninitialized`/`Starting`) a repeated call within one emulated second
is suppressed: no configuration re-subscription, no snapshot refresh, no
scan start, and no timestamp or status update. -/
theorem init_idempotent_rate_limited (core_state ticks tps : Nat) (v : Bool)
    (cfg_si : Ports Nat) (cfg_rumble : Ports Bool) (fid : Nat)
    (s : AdapterState) :
    (s.handle = true →
       Init core_state ticks tps v cfg_si cfg_rumble fid s = s) ∧
    (s.handle = false → core_state ≠ CORE_STATE_UNINITIALIZED →
     core_state ≠ CORE_STATE_STARTING → u64sub ticks s.last_init < tps →
       (Init core_state ticks tps v cfg_si cfg_rumble fid s).config_callback_id
         = s.config_callback_id ∧
       (Init core_state ticks tps v cfg_si cfg_rumble fid s).config_si_device_type
         = s.config_si_device_type ∧
       (Init core_state ticks tps v cfg_si cfg_rumble fid s).config_rumble_enabled
         = s.config_rumble_enabled ∧
       (Init core_state ticks tps v cfg_si cfg_rumble fid s).scan_thread_running
         = s.scan_thread_running ∧
       (Init core_state ticks tps v cfg_si cfg_rumble fid s).last_init
         = s.last_init ∧
       (Init core_state ticks tps v cfg_si cfg_rumble fid s).status
         = s.status) := by
  constructor
  · intro h
    simp [Init, h]
  · intro h h0 h1 hlt
    simp [Init, h, h0, h1, hlt]

/-- Witness for C9: with an open handle `Init` changes nothing, and on the
concrete no-session state a repeated call 50 ticks after the previous one
(with 1000 ticks per second, core state `Running`) starts no scan, keeps
the subscription, and keeps the timestamp. -/
theorem init_idempotent_rate_limited_witness :
    Init 2 100 1000 true ⟨0, 0, 0, 0⟩ ⟨false, false, false, false⟩ 7
      exampleState = exampleState ∧
    (Init 2 100 1000 true ⟨0, 0, 0, 0⟩ ⟨false, false, false, false⟩ 7
      initSuppressState).scan_thread_running
      = initSuppressState.scan_thread_running ∧
    (Init 2 100 1000 true ⟨0, 0, 0, 0⟩ ⟨false, false, false, false⟩ 7
      initSuppressState).config_callback_id
      = initSuppressState.config_callback_id ∧
    (Init 2 100 1000 true ⟨0, 0, 0, 0⟩ ⟨false, false, false, false⟩ 7
      initSuppressState).last_init = initSuppressState.last_init := by
  have h1 := (init_idempotent_rate_limited 2 100 1000 true ⟨0, 0, 0, 0⟩
    ⟨false, false, false, false⟩ 7 exampleState).1 (by decide)
  have h2 := (init_idempotent_rate_limited 2 100 1000 true ⟨0, 0, 0, 0⟩
    ⟨false, false, false, false⟩ 7 initSuppressState).2 (by decide)
    (by decide) (by decide) (by decide)
  exact ⟨h1, h2.2.2.2.1, h2.1, h2.2.2.2.2.1⟩

end GCAdapter
